import Mathlib

/-!
Verification of the TimeTrack multi-tenant retail back end against its
natural-language specification.

The Python sources under backend/ are shallowly embedded below: each
SQLAlchemy table becomes a Lean structure, the database becomes a record of
row lists plus autoincrement counters, and each persistence function or
route handler becomes a pure Lean function from (state, request) to
(response, state).  Machine details that matter are modelled explicitly:

* Python truthiness of optional request strings (`if not x`) is `truthy`;
* `datetime.utcnow().replace(hour=0, ...)` is `dayStartUTC` over seconds
  since the epoch;
* `round(x, 2)` is `round2` over the rationals (round half to even, as
  Python's round);
* Flask's per-request `g` object is the `Gctx` record whose fields start
  unset; reading an unset field raises AttributeError, which Flask turns
  into an HTTP 500 — handler embeddings return a 500 response on that path;
* the per-request tenant context that the route handlers read from
  `g.tenant_id` is passed to the handler embeddings as an explicit
  `tenantId` parameter, so handler logic can be analysed independently of
  the authentication guard (the guard itself is embedded separately as
  `requireAuth`);
* external libraries (bcrypt, JWT) are function parameters of the
  embeddings that use them; Stripe/SMTP flows are cut at the process
  boundary.

The face-matching service (backend/services/face_service.py) is imported by
the timeclock routes but its source file is absent from the snapshot; its
operations are modelled from the specification where indicated, with
euclidean distances represented by their squares so the model stays inside
the rationals (every comparison `distance < c` in the service or its
callers becomes `distSq < c^2`, a monotone translation).
-/

namespace TimeTrack

/-- Python truthiness of an optional string request field: `data.get(k)` is
falsy when the key is absent or the value is the empty string. -/
def truthy : Option String → Bool
  | none => false
  | some s => s ≠ ""

/-- ASCII whitespace for the purposes of Python `str.strip()` and
`int(str)` tolerance. -/
def isSpaceChar (c : Char) : Bool :=
  c == ' ' || c == '\t' || c == '\n' || c == '\r'

/-- Python `str.strip()` (kept list-based so it evaluates by reduction). -/
def pyStrip (s : String) : String :=
  String.mk (((s.data.dropWhile isSpaceChar).reverse.dropWhile isSpaceChar).reverse)

/-- Python `str.lower()` on ASCII input. -/
def pyLower (s : String) : String := String.mk (s.data.map Char.toLower)

/-- Digits-only decimal parse. -/
def digitsToNat : List Char → Option Nat
  | [] => none
  | cs => if cs.all Char.isDigit then
            some (cs.foldl (fun acc c => acc * 10 + (c.toNat - 48)) 0)
          else none

/-- Python `int(str)` restricted to the non-negative ids this code parses:
optional surrounding whitespace then decimal digits; anything else raises
ValueError, here none. -/
def pyParseInt (s : String) : Option Nat := digitsToNat (pyStrip s).data

/-- Whether `p` is an initial segment of `l` (Python `str.startswith`). -/
def listStartsWith : List Char → List Char → Bool
  | [], _ => true
  | _ :: _, [] => false
  | p :: ps, c :: cs => p == c && listStartsWith ps cs

/-- Split a character list on a separator character (Python `str.split`). -/
def splitOnChar (sep : Char) : List Char → List (List Char)
  | [] => [[]]
  | c :: cs =>
      let rest := splitOnChar sep cs
      if c == sep then [] :: rest
      else match rest with
        | [] => [[c]]
        | r :: rs => (c :: r) :: rs

/-- Seconds in one UTC day. -/
def secPerDay : Nat := 86400

/-- `datetime.utcnow().replace(hour=0, minute=0, second=0, microsecond=0)`
for a timestamp in seconds since the epoch: the start of its UTC day. -/
def dayStartUTC (t : Nat) : Nat := t / secPerDay * secPerDay

/-- Floor of a rational, computed by floor division of numerator by
denominator (kept primitive so it evaluates by kernel reduction). -/
def ratFloor (x : ℚ) : ℤ := Int.fdiv x.num (x.den : ℤ)

/-- Round a rational to the nearest integer, ties to even (the semantics of
Python round on exact values). -/
def roundHalfEven (x : ℚ) : ℤ :=
  let f := ratFloor x
  let frac := x - (f : ℚ)
  if frac < 1/2 then f
  else if (1:ℚ)/2 < frac then f + 1
  else if f % 2 = 0 then f else f + 1

/-- Python `round(x, 2)`: round to two decimal places, ties to even. -/
def round2 (x : ℚ) : ℚ := (roundHalfEven (x * 100) : ℚ) / 100

/-! ### Database rows (backend/models.py, the 8 SQLAlchemy models)

Only the columns that the embedded operations touch are carried; base64
image columns are represented by the byte size of the stored image, which
is the only aspect of an image the embedded code paths consume. -/

/-- Row of the tenants table (models.py:11-54). -/
structure TenantRow where
  id : Nat
  companyName : String
  email : String
  passwordHash : String
  plan : String := "basic"
  maxStorageBytes : Nat := 1073741824
  usedStorageBytes : Nat := 0
  /-- Column default is the string active (models.py:21). -/
  status : String := "active"
  stripeCustomerId : Option String := none
  stripeSubscriptionId : Option String := none
deriving DecidableEq, Repr

/-- Row of the managers table (models.py:57-90). -/
structure ManagerRow where
  id : Nat
  tenantId : Nat
  name : String
  username : String
  password : String
  isSuperAdmin : Bool := false
deriving DecidableEq, Repr

/-- Row of the stores table (models.py:93-138). -/
structure StoreRow where
  id : Nat
  tenantId : Nat
  name : String
  username : String
  password : String
  totalBoxes : Nat := 0
  managerUsername : Option String := none
  allowedIp : Option String := none
deriving DecidableEq, Repr

/-- Row of the employees table (models.py:141-201).  Face descriptors are
the parsed JSON vectors; a stored face image is carried as its byte size. -/
structure EmployeeRow where
  id : Nat
  tenantId : Nat
  storeId : Option String := none
  name : String
  role : Option String := none
  phoneNumber : Option String := none
  hourlyPay : Option ℚ := none
  active : Bool := true
  faceRegistered : Bool := false
  faceDescriptor : Option (List ℚ) := none
  faceDescriptors : Option (List (List ℚ)) := none
  faceImageSize : Option Nat := none
deriving DecidableEq, Repr

/-- `Employee.get_face_descriptors` (models.py:176-181): None parses to []. -/
def EmployeeRow.getFaceDescriptors (e : EmployeeRow) : List (List ℚ) :=
  e.faceDescriptors.getD []

/-- Row of the inventory table (models.py:204-234). -/
structure InventoryRow where
  id : Nat
  tenantId : Nat
  storeId : String
  sku : String
  name : String
  quantity : Int := 0
deriving DecidableEq, Repr

/-- One serialized snapshot item (inventory_history.py:74-82). -/
structure SnapItem where
  sku : String
  name : String
  quantity : Int
  price : Nat := 0
deriving DecidableEq, Repr

/-- A calendar date as produced by the snapshot route's datetime parsing;
all datetimes it builds are midnight-normalized, so a date triple is the
whole value. -/
structure SDate where
  y : Nat
  m : Nat
  d : Nat
deriving DecidableEq, Repr

/-- Order-embedding key for valid dates (m ≤ 12 < 16, d ≤ 31 < 32), so that
comparison of midnight datetimes is comparison of keys. -/
def SDate.key (a : SDate) : Nat := (a.y * 16 + a.m) * 32 + a.d

/-- Strict datetime comparison of two midnight-normalized dates. -/
def SDate.before (a b : SDate) : Bool := a.key < b.key

/-- Row of the inventory_history table (models.py:237-278). -/
structure HistoryRow where
  id : Nat
  tenantId : Nat
  storeId : String
  snapshotDate : SDate
  items : List SnapItem
  createdAt : Nat := 0
  updatedAt : Nat := 0
deriving DecidableEq, Repr

/-- Row of the timeclock table (models.py:281-322); clock times are seconds
since the epoch (UTC), images are carried as byte sizes. -/
structure TimeClockRow where
  id : Nat
  tenantId : Nat
  employeeId : Nat
  employeeName : Option String := none
  storeId : Option String := none
  clockIn : Nat
  clockOut : Option Nat := none
  hoursWorked : Option ℚ := none
  clockInImageSize : Option Nat := none
  clockOutImageSize : Option Nat := none
  clockInConfidence : Option ℚ := none
  clockOutConfidence : Option ℚ := none
deriving DecidableEq, Repr

/-- Row of the eod table (models.py:325-364). -/
structure EODRow where
  id : Nat
  tenantId : Nat
  storeId : String
  reportDate : String
  notes : String := ""
  cashAmount : ℚ := 0
  creditAmount : ℚ := 0
  qpayAmount : ℚ := 0
  boxesCount : Nat := 0
  total1 : ℚ := 0
  submittedBy : String := "Unknown"
deriving DecidableEq, Repr

/-- The relational state: one list per table plus autoincrement counters. -/
structure DB where
  tenants : List TenantRow := []
  managers : List ManagerRow := []
  stores : List StoreRow := []
  employees : List EmployeeRow := []
  inventory : List InventoryRow := []
  history : List HistoryRow := []
  timeclock : List TimeClockRow := []
  eods : List EODRow := []
  nextTenantId : Nat := 1
  nextManagerId : Nat := 1
  nextStoreId : Nat := 1
  nextEmployeeId : Nat := 1
  nextInvId : Nat := 1
  nextHistId : Nat := 1
  nextTcId : Nat := 1
  nextEodId : Nat := 1
deriving DecidableEq, Repr

/-- A JSON error/success response reduced to the fields the claims inspect:
HTTP status, the success flag where the endpoint returns one, the
human-readable message, and a returned row id where present. -/
structure ApiResp where
  status : Nat
  success : Bool := true
  msg : String := ""
  rid : Option Nat := none
deriving DecidableEq, Repr

/-! ### Authentication module (backend/auth.py) -/

/-- The decoded JWT payload fields used across the system (auth.py,
spec section 6): every field is optional because the payload is an
arbitrary dict. -/
structure Claims where
  role : Option String := none
  tenantId : Option Nat := none
  username : Option String := none
  name : Option String := none
  isSuperAdmin : Option Bool := none
deriving DecidableEq, Repr

/-- Flask's per-request `g` object restricted to the two attributes this
code base ever stores on it.  Each request starts with both unset; reading
an unset attribute raises AttributeError (an HTTP 500 once it escapes the
handler). -/
structure Gctx where
  currentUser : Option Claims := none
  tenantId : Option Nat := none
deriving DecidableEq, Repr

/-- Role gate of `require_auth` (auth.py:91): Python `if roles and
user_data.get('role') not in roles` — an absent or empty roles list skips
the check, and a payload without a role field is never in the list. -/
def roleBlocked (roles : Option (List String)) (u : Claims) : Bool :=
  match roles with
  | none => false
  | some [] => false
  | some rs =>
      match u.role with
      | none => true
      | some r => !(rs.contains r)

/-- The `require_auth` guard (auth.py:64-99).  `token` is the extraction
result of `get_auth_token` (empty string when no header is present) and
`verify` stands for the external JWT library's `verify_token` (auth.py:36,
returning none for expired/malformed tokens).  On success the guard stores
the decoded claims in `g.current_user` (auth.py:95) — this is the only
write to the request context the guard performs. -/
def requireAuth (verify : String → Option Claims) (token : String)
    (roles : Option (List String)) : Except ApiResp Gctx :=
  if token = "" then
    .error { status := 401, success := false,
             msg := "Authentication required. Please login." }
  else
    match verify token with
    | none =>
        .error { status := 401, success := false,
                 msg := "Invalid or expired token. Please login again." }
    | some u =>
        if roleBlocked roles u then
          .error { status := 403, success := false, msg := "Insufficient permissions" }
        else
          .ok { currentUser := some u, tenantId := none }

/-- The special-character set of `validate_password_strength`
(auth.py:124). -/
def specialChars : String := "!@#$%^&*()_+-=[]\x7b\x7d|;:,.<>?"

/-- `validate_password_strength` (auth.py:101-139); the boolean is paired
with the aggregated error message.  Character classes are ASCII here,
matching Python on ASCII input. -/
def validatePasswordStrength (password : String) : Bool × Option String :=
  if password = "" then (false, some "Password is required")
  else if password.length < 8 then
    (false, some "Password must be at least 8 characters long")
  else
    let hasUpper := password.data.any Char.isUpper
    let hasLower := password.data.any Char.isLower
    let hasDigit := password.data.any Char.isDigit
    let hasSpecial := password.data.any (fun c => specialChars.data.contains c)
    let errors :=
      (if hasUpper then [] else ["one uppercase letter"]) ++
      (if hasLower then [] else ["one lowercase letter"]) ++
      (if hasDigit then [] else ["one number"]) ++
      (if hasSpecial then []
       else ["one special character (" ++ specialChars ++ ")"])
    if errors ≠ [] then
      (false, some ("Password must contain at least " ++ String.intercalate ", " errors))
    else (true, none)

/-! ### Model/persistence functions (backend/models.py) -/

/-- `verify_password` (models.py:374-392): empty input or a hash without a
bcrypt marker is rejected outright; otherwise the external bcrypt
`checkpw` (passed as a parameter) decides. -/
def verifyPassword (checkpw : String → String → Bool)
    (password hashed : String) : Bool :=
  if password = "" || hashed = "" then false
  else if !(listStartsWith "$2b$".data hashed.data ||
            listStartsWith "$2a$".data hashed.data) then false
  else checkpw password hashed

/-- One entry of the default catalogue (models.py:395-447). -/
structure CatItem where
  sku : String
  name : String
deriving DecidableEq, Repr

/-- `get_default_inventory_items` (models.py:395-447): the fixed 45-entry
catalogue. -/
def getDefaultInventoryItems : List CatItem :=
  [⟨"Samsung", "S 23 FE"⟩, ⟨"Samsung", "S24 FE"⟩, ⟨"Samsung", "Samsung Tab 3"⟩,
   ⟨"Samsung", "Samsung Watch"⟩,
   ⟨"Apple", "Iphone 13"⟩, ⟨"Apple", "Iphone 14"⟩, ⟨"Apple", "Iphone 16"⟩,
   ⟨"Apple", "Iphone 16 e"⟩, ⟨"Apple", "Iphone 16 plus"⟩, ⟨"Apple", "Iphone 16 pro"⟩,
   ⟨"Apple", "Iphone 16 pro max"⟩, ⟨"Apple", "Apple Watch"⟩,
   ⟨"Motorola", "Moto g 2024"⟩, ⟨"Motorola", "Moto g 2025"⟩,
   ⟨"Motorola", "Moto power 2024"⟩, ⟨"Motorola", "Moto power 2025"⟩,
   ⟨"Motorola", "Moto razr 2024"⟩, ⟨"Motorola", "Moto stylus 2023"⟩,
   ⟨"Motorola", "Moto stylus 2024"⟩, ⟨"Motorola", "Moto stylus 2025"⟩,
   ⟨"Motorola", "Moto edge 2024"⟩,
   ⟨"TCL", "TCL 50 XL 3"⟩, ⟨"TCL", "TCL K32"⟩, ⟨"TCL", "TCL ION X"⟩,
   ⟨"TCL", "TCL K11"⟩, ⟨"TCL", "TCL Tab"⟩,
   ⟨"Revvl", "Rewl 7"⟩, ⟨"Revvl", "Rewl 7 pro"⟩, ⟨"Revvl", "Revvl Tab"⟩,
   ⟨"Revvl", "Revll 8"⟩,
   ⟨"Google", "Google pixel"⟩, ⟨"Chromebook", "Chrome book"⟩,
   ⟨"Flip Phone", "Flip Phone 3"⟩,
   ⟨"Generic", "A13"⟩, ⟨"Generic", "A15"⟩, ⟨"Generic", "A16"⟩,
   ⟨"Generic", "A35"⟩, ⟨"Generic", "A36"⟩, ⟨"Generic", "C210"⟩,
   ⟨"Generic", "G310"⟩, ⟨"Generic", "G400"⟩, ⟨"Generic", "HSI"⟩,
   ⟨"Simcards", "Simcards"⟩]

/-- Storage ceiling per plan (models.py:472-477, identical table at
models.py:514-518): `plan_limits.get(plan, 1073741824)`. -/
def planLimit (plan : String) : Nat :=
  if plan = "basic" then 1073741824
  else if plan = "standard" then 10737418240
  else if plan = "premium" then 107374182400
  else 1073741824

/-- `create_tenant` (models.py:464-491).  The new row takes the status
column default, which is the string active (models.py:21); the function
itself never assigns status.  A duplicate email raises ValueError. -/
def createTenant (st : DB) (companyName email passwordHash : String)
    (plan : String := "basic") : Except String (TenantRow × DB) :=
  if (st.tenants.find? (fun t => t.email == email)).isSome then
    .error ("Tenant with email " ++ email ++ " already exists")
  else
    let tenant : TenantRow :=
      { id := st.nextTenantId, companyName := companyName, email := email,
        passwordHash := passwordHash, plan := plan,
        maxStorageBytes := planLimit plan }
    .ok (tenant, { st with tenants := st.tenants ++ [tenant],
                           nextTenantId := st.nextTenantId + 1 })

/-- `create_manager` (models.py:549-569); `hashPw` stands for the external
bcrypt `hash_password`.  A `(tenant_id, username)` duplicate raises
ValueError. -/
def createManager (hashPw : String → String) (st : DB) (tenantId : Nat)
    (name username password : String) (isSuperAdmin : Bool := false) :
    Except String (ManagerRow × DB) :=
  if (st.managers.find? (fun m => m.tenantId == tenantId && m.username == username)).isSome then
    .error ("Manager username " ++ username ++ " already exists for this tenant")
  else
    let manager : ManagerRow :=
      { id := st.nextManagerId, tenantId := tenantId, name := name,
        username := username, password := hashPw password,
        isSuperAdmin := isSuperAdmin }
    .ok (manager, { st with managers := st.managers ++ [manager],
                            nextManagerId := st.nextManagerId + 1 })

/-- `create_employee` (models.py:737-750). -/
def createEmployee (st : DB) (tenantId : Nat) (storeId : Option String)
    (name : String) (role : Option String := none)
    (phoneNumber : Option String := none) (hourlyPay : Option ℚ := none) :
    Nat × DB :=
  let emp : EmployeeRow :=
    { id := st.nextEmployeeId, tenantId := tenantId, storeId := storeId,
      name := name, role := role, phoneNumber := phoneNumber,
      hourlyPay := hourlyPay, active := true }
  (emp.id, { st with employees := st.employees ++ [emp],
                     nextEmployeeId := st.nextEmployeeId + 1 })

/-- `delete_employee` (models.py:764-774): looks the employee up by primary
key only — no tenant filter — and deletion cascades the employee's
TimeClock entries (models.py:163, cascade all, delete-orphan).  A malformed
id is caught and reported as false. -/
def deleteEmployee (st : DB) (employeeId : String) : Bool × DB :=
  match pyParseInt employeeId with
  | none => (false, st)
  | some eid =>
      match st.employees.find? (fun e => e.id == eid) with
      | none => (false, st)
      | some _ =>
          (true, { st with
                    employees := st.employees.filter (fun e => !(e.id == eid)),
                    timeclock := st.timeclock.filter (fun r => !(r.employeeId == eid)) })

/-- `delete_store` (models.py:717-730).  The function deletes the matching
TimeClock rows explicitly and then the store row itself.  Although its
comment (models.py:723) expects dependent data to go via cascade, the Store
model declares no relationship to Inventory, InventoryHistory or EOD
(models.py:113-117: those links are handled via queries only, store_id
being a name string with no foreign key), so deleting the store row touches
no row of those three tables. -/
def deleteStore (st : DB) (tenantId : Nat) (name : String) : Bool × DB :=
  match st.stores.find? (fun s => s.tenantId == tenantId && s.name == name) with
  | none => (false, st)
  | some store =>
      (true, { st with
                timeclock := st.timeclock.filter
                  (fun r => !(r.tenantId == tenantId && r.storeId == some name)),
                stores := st.stores.filter (fun s => !(s.id == store.id)) })

/-- The sku-existence check of `add_default_inventory_to_store`
(models.py:856-861): `Inventory.query.filter_by(tenant_id, store_id,
sku).first()`.  The session autoflushes before each query, so rows added
earlier in the same loop are visible. -/
def skuExists (st : DB) (tenantId : Nat) (storeName sku : String) : Bool :=
  (st.inventory.find?
    (fun r => r.tenantId == tenantId && r.storeId == storeName && r.sku == sku)).isSome

/-- Loop body of `add_default_inventory_to_store` (models.py:855-872):
insert each catalogue item whose `(tenant_id, store_id, sku)` is not yet
present, counting creations. -/
def addDefaultLoop (tenantId : Nat) (storeName : String) :
    List CatItem → DB → Nat → Nat × DB
  | [], st, c => (c, st)
  | item :: rest, st, c =>
      if skuExists st tenantId storeName item.sku then
        addDefaultLoop tenantId storeName rest st c
      else
        addDefaultLoop tenantId storeName rest
          { st with
              inventory := st.inventory ++
                [{ id := st.nextInvId, tenantId := tenantId,
                   storeId := storeName, sku := item.sku,
                   name := item.name, quantity := 0 }],
              nextInvId := st.nextInvId + 1 }
          (c + 1)

/-- `add_default_inventory_to_store` (models.py:846-880).  No duplicate sku
reaches the commit (each iteration skips skus already pending or stored),
so the commit succeeds and the created count is returned. -/
def addDefaultInventoryToStore (st : DB) (tenantId : Nat) (storeName : String) :
    Nat × DB :=
  addDefaultLoop tenantId storeName getDefaultInventoryItems st 0

/-- `update_tenant_storage` (models.py:494-505): adds the delta to the
running total, clamping at 0; an unknown tenant raises ValueError. -/
def updateTenantStorage (st : DB) (tenantId : Nat) (additionalBytes : Int) :
    Except String DB :=
  match st.tenants.find? (fun t => t.id == tenantId) with
  | none => .error "Tenant not found"
  | some _ =>
      .ok { st with tenants := st.tenants.map (fun t =>
              if t.id == tenantId then
                { t with usedStorageBytes :=
                    ((t.usedStorageBytes : Int) + additionalBytes).toNat }
              else t) }

/-- `get_eods` without the derived employees_worked augmentation
(models.py:904-948): tenant/store filtering and newest-report-date-first
ordering; the augmentation reads TimeClock rows at view time and is not
touched by any claim, so it is elided here. -/
def getEods (st : DB) (tenantId : Option Nat) (storeId : Option String) :
    List EODRow :=
  let filtered := st.eods.filter (fun e =>
    (match tenantId with | none => true | some t => e.tenantId == t) &&
    (match storeId with | none => true | some s => e.storeId == s))
  filtered.foldr (fun e acc =>
    let rec ins (x : EODRow) : List EODRow → List EODRow
      | [] => [x]
      | y :: ys => if y.reportDate ≤ x.reportDate then x :: y :: ys
                   else y :: ins x ys
    ins e acc) []

/-! ### Storage-quota utility (backend/utils/storage.py) -/

/-- `Tenant.check_storage_limit` (models.py:46-48). -/
def tenantHasSpace (t : TenantRow) (additionalBytes : Nat) : Bool :=
  t.usedStorageBytes + additionalBytes ≤ t.maxStorageBytes

/-- `check_storage_limit` (storage.py:58-78); the over-limit message text
is abbreviated (the source interpolates the GiB figures). -/
def checkStorageLimit (st : DB) (tenantId : Nat) (additionalBytes : Nat) :
    Bool × Option String :=
  match st.tenants.find? (fun t => t.id == tenantId) with
  | none => (false, some "Tenant not found")
  | some t =>
      if !(tenantHasSpace t additionalBytes) then
        (false, some "Storage limit exceeded. Please upgrade your plan.")
      else (true, none)

/-- `update_storage_usage` (storage.py:81-102): a positive delta is
re-checked against the limit (raising on failure), then
`update_tenant_storage` applies it. -/
def updateStorageUsage (st : DB) (tenantId : Nat) (additionalBytes : Int) :
    Except String DB :=
  if additionalBytes > 0 then
    match checkStorageLimit st tenantId additionalBytes.toNat with
    | (false, msg) => .error (msg.getD "")
    | (true, _) => updateTenantStorage st tenantId additionalBytes
  else updateTenantStorage st tenantId additionalBytes

/-! ### Face-matching service

Modelled from the spec: backend/services/face_service.py is imported by the
timeclock routes (timeclock.py:7-12) but its source file is missing from
the snapshot, so `validate_face_descriptor`, `euclidean_distance` and
`find_best_match` are modelled from spec section 4.5.  Distances are
represented by their squares so that the model stays within ℚ; every
threshold comparison is translated monotonically (`d < c` becomes
`dSq < c^2`) and the confidence is the corresponding monotonically
decreasing surrogate `1 - dSq` clamped at 0. -/

/-- Modelled from the spec: `validate_face_descriptor` is true only for a
128-element numeric array (spec 4.5); numeric-ness is carried by the ℚ
type. -/
def validateFaceDescriptor (v : List ℚ) : Bool := v.length == 128

/-- Modelled from the spec: the square of `euclidean_distance` (spec 4.5,
standard L2 distance); kept squared to stay rational. -/
def distSq (a b : List ℚ) : ℚ :=
  ((a.zip b).map (fun p => (p.1 - p.2) ^ 2)).sum

/-- Minimum squared distance from a probe to a list of stored descriptors;
none when the list is empty (Python starts from infinity). -/
def minDistSq (probe : List ℚ) (ds : List (List ℚ)) : Option ℚ :=
  (ds.map (distSq probe)).min?

/-- The match record `find_best_match` returns, as consumed by the routes
(timeclock.py:115-117): employee id, name and confidence. -/
structure MatchResult where
  employeeId : Nat
  employeeName : String
  confidence : ℚ
deriving DecidableEq, Repr

/-- Descriptors carried by a candidate employee dict: the learned list plus
the legacy single descriptor (spec 4.5: a candidate may carry multiple
stored descriptors). -/
def candidateDescriptors (e : EmployeeRow) : List (List ℚ) :=
  e.getFaceDescriptors ++ (match e.faceDescriptor with
    | some d => [d]
    | none => [])

/-- Modelled from the spec: `find_best_match` (spec 4.5) — the candidate
with the globally smallest minimum distance wins when that distance is
below the threshold; squared distances throughout, threshold passed
squared. -/
def findBestMatch (probe : List ℚ) (cands : List EmployeeRow)
    (thresholdSq : ℚ) : Option MatchResult :=
  let best := cands.foldl (fun acc e =>
    match minDistSq probe (candidateDescriptors e) with
    | none => acc
    | some d =>
        match acc with
        | none => some (e, d)
        | some (_, bd) => if d < bd then some (e, d) else acc) none
  match best with
  | none => none
  | some (e, d) =>
      if d < thresholdSq then
        some { employeeId := e.id, employeeName := e.name,
               confidence := max 0 (1 - d) }
      else none

/-! ### Timeclock routes (backend/routes/timeclock.py)

Handler embeddings take the tenant context (`g.tenant_id`) as the explicit
`tenantId` parameter; the guard's failure to populate that context value is
settled separately (see the theorems on `requireAuth`). -/

/-- Legacy `clock-in` (timeclock.py:17-39): verify the employee belongs to
the tenant, then insert a fresh open entry timestamped now — with no check
for an already-open entry. -/
def clockInRoute (st : DB) (tenantId : Nat) (employeeId : Nat) (now : Nat) :
    ApiResp × DB :=
  match st.employees.find? (fun e => e.id == employeeId && e.tenantId == tenantId) with
  | none => ({ status := 404, success := false, msg := "Employee not found" }, st)
  | some _ =>
      let entry : TimeClockRow :=
        { id := st.nextTcId, tenantId := tenantId, employeeId := employeeId,
          clockIn := now, clockOut := none }
      ({ status := 201, rid := some entry.id },
       { st with timeclock := st.timeclock ++ [entry],
                 nextTcId := st.nextTcId + 1 })

/-- Legacy `clock-out` (timeclock.py:42-59): look the entry up by id and
tenant and set its clock_out to now.  The handler does not filter on an
open entry, and it never assigns hours_worked. -/
def clockOutRoute (st : DB) (tenantId : Nat) (entryId : Nat) (now : Nat) :
    ApiResp × DB :=
  match st.timeclock.find? (fun r => r.id == entryId && r.tenantId == tenantId) with
  | none =>
      ({ status := 400, success := false,
         msg := "Invalid or already clocked out entry" }, st)
  | some _ =>
      ({ status := 200 },
       { st with timeclock := st.timeclock.map (fun r =>
           if r.id == entryId && r.tenantId == tenantId then
             { r with clockOut := some now }
           else r) })

/-- The face request JSON (timeclock.py:68-73): descriptor, optional image
(carried here as the byte size of its compressed form, the only aspect the
embedded paths consume) and optional store id. -/
structure FaceReq where
  faceDescriptor : Option (List ℚ) := none
  faceImageSize : Option Nat := none
  storeId : Option String := none
deriving DecidableEq, Repr

/-- The opportunistic appearance-learning step shared by both face routes
(timeclock.py:127-148 and 286-307): when the matched face is farther than
0.3 from every stored descriptor yet confident above 0.7, append it and
keep the 5 most recent.  Thresholds are squared-distance surrogates (0.3
becomes 9/100 on distSq, the confidence comparison is unchanged). -/
def learnAppearance (st : DB) (emp : EmployeeRow) (probe : List ℚ)
    (confidence : ℚ) : DB :=
  let existing :=
    if emp.getFaceDescriptors ≠ [] then emp.getFaceDescriptors
    else match emp.faceDescriptor with
      | some d => [d]
      | none => []
  let farEnough := match minDistSq probe existing with
    | none => true
    | some d => d > 9/100
  if farEnough && confidence > 7/10 then
    let appended := existing ++ [probe]
    let kept := if appended.length > 5 then
                  appended.drop (appended.length - 5)
                else appended
    { st with employees := st.employees.map (fun e =>
        if e.id == emp.id then { e with faceDescriptors := some kept } else e) }
  else st

/-- The open-entry-today query shared by both face routes
(timeclock.py:153-158 and 312-317): same tenant, same employee, clock_in at
or after the current UTC day start, clock_out null. -/
def findOpenTodayEntry (st : DB) (tenantId employeeId now : Nat) :
    Option TimeClockRow :=
  st.timeclock.find? (fun r =>
    r.tenantId == tenantId && r.employeeId == employeeId &&
    decide (dayStartUTC now ≤ r.clockIn) && r.clockOut.isNone)

/-- `clock-in-face` (timeclock.py:62-218).  The match step uses the
spec-modelled face service; the storage branch follows
storage.py via `checkStorageLimit`/`updateStorageUsage` on the image's
byte size. -/
def clockInFace (st : DB) (tenantId : Nat) (req : FaceReq) (now : Nat) :
    ApiResp × DB :=
  match req.faceDescriptor with
  | none => ({ status := 400, success := false,
               msg := "face_descriptor is required" }, st)
  | some probe =>
    if probe = [] then
      ({ status := 400, success := false, msg := "face_descriptor is required" }, st)
    else if !(validateFaceDescriptor probe) then
      ({ status := 400, success := false, msg := "Invalid face descriptor format" }, st)
    else
      let registered := st.employees.filter
        (fun e => e.tenantId == tenantId && e.faceRegistered)
      if registered = [] then
        ({ status := 404, success := false,
           msg := "No employees with registered faces found. Please register your face first." }, st)
      else
        match findBestMatch probe registered (9/25) with
        | none =>
            ({ status := 404, success := false,
               msg := "Face not recognized. Please try again or contact your manager." }, st)
        | some m =>
          match st.employees.find?
              (fun e => e.id == m.employeeId && e.tenantId == tenantId) with
          | none =>
              ({ status := 404, success := false,
                 msg := "Employee not found or does not belong to this tenant" }, st)
          | some emp =>
            let st1 := learnAppearance st emp probe m.confidence
            match findOpenTodayEntry st1 tenantId m.employeeId now with
            | some _ =>
                ({ status := 400, success := false,
                   msg := m.employeeName ++ " is already clocked in today." }, st1)
            | none =>
              let afterStorage : Except String DB :=
                match req.faceImageSize with
                | none => .ok st1
                | some sz =>
                    match checkStorageLimit st1 tenantId sz with
                    | (false, emsg) => .error (emsg.getD "")
                    | (true, _) => updateStorageUsage st1 tenantId sz
              match afterStorage with
              | .error emsg => ({ status := 400, success := false, msg := emsg }, st1)
              | .ok st2 =>
                  let entry : TimeClockRow :=
                    { id := st2.nextTcId, tenantId := tenantId,
                      employeeId := m.employeeId,
                      employeeName := some m.employeeName,
                      storeId := req.storeId, clockIn := now, clockOut := none,
                      clockInImageSize := req.faceImageSize,
                      clockInConfidence := some m.confidence }
                  ({ status := 201, rid := some entry.id },
                   { st2 with timeclock := st2.timeclock ++ [entry],
                              nextTcId := st2.nextTcId + 1 })

/-- `clock-out-face` (timeclock.py:221-379): mirrors clock-in but requires
an open entry for today (400 otherwise), accounts the storage delta between
old and new clock-out image sizes, and closes the entry computing
hours_worked as the clock difference in hours rounded to 2 decimals
(timeclock.py:347-355). -/
def clockOutFace (st : DB) (tenantId : Nat) (req : FaceReq) (now : Nat) :
    ApiResp × DB :=
  match req.faceDescriptor with
  | none => ({ status := 400, success := false,
               msg := "face_descriptor is required" }, st)
  | some probe =>
    if probe = [] then
      ({ status := 400, success := false, msg := "face_descriptor is required" }, st)
    else if !(validateFaceDescriptor probe) then
      ({ status := 400, success := false, msg := "Invalid face descriptor format" }, st)
    else
      let registered := st.employees.filter
        (fun e => e.tenantId == tenantId && e.faceRegistered)
      if registered = [] then
        ({ status := 404, success := false,
           msg := "No employees with registered faces found." }, st)
      else
        match findBestMatch probe registered (9/25) with
        | none =>
            ({ status := 404, success := false,
               msg := "Face not recognized. Please try again or contact your manager." }, st)
        | some m =>
          match st.employees.find?
              (fun e => e.id == m.employeeId && e.tenantId == tenantId) with
          | none =>
              ({ status := 404, success := false,
                 msg := "Employee not found or does not belong to this tenant" }, st)
          | some emp =>
            let st1 := learnAppearance st emp probe m.confidence
            match findOpenTodayEntry st1 tenantId m.employeeId now with
            | none =>
                ({ status := 400, success := false,
                   msg := m.employeeName ++ " is not clocked in today. Please clock in first." }, st1)
            | some entry =>
              let afterStorage : Except String DB :=
                match req.faceImageSize with
                | none => .ok st1
                | some sz =>
                    let oldSize : Int := (entry.clockOutImageSize.getD 0 : Nat)
                    let change : Int := (sz : Int) - oldSize
                    if change > 0 then
                      match checkStorageLimit st1 tenantId change.toNat with
                      | (false, emsg) => .error (emsg.getD "")
                      | (true, _) => updateStorageUsage st1 tenantId change
                    else if change ≠ 0 then
                      updateStorageUsage st1 tenantId change
                    else .ok st1
              match afterStorage with
              | .error emsg => ({ status := 400, success := false, msg := emsg }, st1)
              | .ok st2 =>
                  let hours : ℚ := ((now : ℚ) - (entry.clockIn : ℚ)) / 3600
                  ({ status := 200, rid := some entry.id },
                   { st2 with timeclock := st2.timeclock.map (fun r =>
                       if r.id == entry.id then
                         { r with clockOut := some now,
                                  clockOutImageSize := req.faceImageSize,
                                  clockOutConfidence := some m.confidence,
                                  hoursWorked := some (round2 hours) }
                       else r) })

/-! ### Inventory-history route (backend/routes/inventory_history.py) -/

/-- Leap-year rule of the Gregorian calendar, as enforced by Python's
datetime constructor. -/
def isLeap (y : Nat) : Bool := (y % 4 == 0 && y % 100 != 0) || y % 400 == 0

/-- Days in a month, as enforced by Python's datetime constructor. -/
def daysInMonth (y m : Nat) : Nat :=
  if m == 1 || m == 3 || m == 5 || m == 7 || m == 8 || m == 10 || m == 12 then 31
  else if m == 4 || m == 6 || m == 9 || m == 11 then 30
  else if isLeap y then 29 else 28

/-- `datetime(y, m, d, 0, 0, 0)`: rejects out-of-range components by
raising ValueError, here none. -/
def mkDatetime (y m d : Nat) : Option SDate :=
  if 1 ≤ y && y ≤ 9999 && 1 ≤ m && m ≤ 12 && 1 ≤ d && d ≤ daysInMonth y m then
    some ⟨y, m, d⟩
  else none

/-- The `YYYY-MM-DD` parse of the snapshot route (inventory_history.py:49-50
and analogous sites): split on the dash, convert the first three parts with
`int`, and build the datetime; any failure raises, here none. -/
def parseYMD (s : String) : Option SDate :=
  match splitOnChar (Char.ofNat 45) s.data with
  | a :: b :: c :: _ =>
      match digitsToNat a, digitsToNat b, digitsToNat c with
      | some y, some m, some d => mkDatetime y m d
      | _, _, _ => none
  | _ => none

/-- The fuller-ISO branch (inventory_history.py:52-54):
`datetime.fromisoformat` then normalization to that day's midnight — for
well-formed inputs this is the date carried by the first ten characters. -/
def parseISOToMidnight (s : String) : Option SDate :=
  parseYMD (String.mk (s.data.take 10))

/-- Resolution of `snapshot_dt` (inventory_history.py:44-71).  Returns none
where the source would raise an uncaught exception (the except-branch and
the no-snapshot-date branch parse `today_date` without their own guard, so
a malformed ten-character `today_date` escapes as a 500). -/
def resolveSnapshotDate (snapshotDate todayDate : Option String)
    (nowLocal : SDate) : Option SDate :=
  let fallback : Option SDate :=
    match todayDate with
    | some td =>
        if td ≠ "" && td.length == 10 then parseYMD td
        else some nowLocal
    | none => some nowLocal
  match snapshotDate with
  | some sd =>
      if sd ≠ "" then
        if sd.length == 10 then
          match parseYMD sd with
          | some dt => some dt
          | none => fallback
        else
          match parseISOToMidnight sd with
          | some dt => some dt
          | none => fallback
      else fallback
  | none => fallback

/-- Resolution of `today_dt` (inventory_history.py:84-96): a ten-character
`today_date` is parsed inside a bare try whose except falls back to the
server's local midnight, as does an absent or oddly sized value. -/
def resolveTodayDate (todayDate : Option String) (nowLocal : SDate) : SDate :=
  match todayDate with
  | some td =>
      if td ≠ "" && td.length == 10 then
        match parseYMD td with
        | some dt => dt
        | none => nowLocal
      else nowLocal
  | none => nowLocal

/-- The normalized item capture (inventory_history.py:41-42 and 73-82):
current inventory rows of the tenant/store as `(sku, name, quantity,
price=0)` records. -/
def snapshotItems (st : DB) (tenantId : Nat) (storeId : String) :
    List SnapItem :=
  (st.inventory.filter (fun r => r.tenantId == tenantId && r.storeId == storeId)).map
    (fun r => { sku := r.sku, name := r.name, quantity := r.quantity, price := 0 })

/-- `POST /snapshot` (inventory_history.py:27-138).  `nowLocal` is the
server-local date used by the fallbacks, `nowTs` the wall clock stored in
updated_at/created_at.  A 500 stands for the uncaught exception of a
malformed unguarded `today_date` parse. -/
def createInventorySnapshot (st : DB) (tenantId : Nat)
    (storeId : Option String) (snapshotDate todayDate : Option String)
    (nowLocal : SDate) (nowTs : Nat) : ApiResp × DB :=
  if !(truthy storeId) then
    ({ status := 400, success := false, msg := "store_id is required" }, st)
  else
    let sid := storeId.getD ""
    match resolveSnapshotDate snapshotDate todayDate nowLocal with
    | none => ({ status := 500, success := false, msg := "uncaught exception" }, st)
    | some snapshotDt =>
        let todayDt := resolveTodayDate todayDate nowLocal
        let items := snapshotItems st tenantId sid
        match st.history.find? (fun h =>
            h.tenantId == tenantId && h.storeId == sid &&
            h.snapshotDate == snapshotDt) with
        | some existing =>
            if snapshotDt.before todayDt then
              ({ status := 403, success := false,
                 msg := "Cannot update inventory history for past dates." }, st)
            else
              ({ status := 200, msg := "Snapshot updated", rid := some existing.id },
               { st with history := st.history.map (fun h =>
                   if h.id == existing.id then
                     { h with items := items, updatedAt := nowTs }
                   else h) })
        | none =>
            if snapshotDt.before todayDt then
              ({ status := 403, success := false,
                 msg := "Cannot create inventory snapshot for past dates." }, st)
            else
              let snap : HistoryRow :=
                { id := st.nextHistId, tenantId := tenantId, storeId := sid,
                  snapshotDate := snapshotDt, items := items,
                  createdAt := nowTs, updatedAt := nowTs }
              ({ status := 201, msg := "Snapshot created", rid := some snap.id },
               { st with history := st.history ++ [snap],
                         nextHistId := st.nextHistId + 1 })

/-! ### Employees, EOD, inventory-history listing routes -/

/-- `DELETE /api/employees/<employee_id>` (employees.py:43-49).  The route
carries no authentication guard and no tenant parameter: it delegates the
raw path segment straight to `delete_employee`. -/
def removeEmployee (st : DB) (employeeId : String) : ApiResp × DB :=
  let (success, st') := deleteEmployee st employeeId
  if success then
    ({ status := 200, success := true, msg := "Employee deleted successfully" }, st')
  else
    ({ status := 404, success := false, msg := "Employee not found" }, st')

/-- `GET /api/eod/` (eod.py:9-15): the handler's first act is reading
`g.tenant_id`; when the guard has not set it, the attribute access raises
(HTTP 500). -/
def listEod (g : Gctx) (st : DB) (storeId : Option String) :
    Except ApiResp (List EODRow) :=
  match g.tenantId with
  | none => .error { status := 500, success := false,
                     msg := "AttributeError: g has no attribute tenant_id" }
  | some t => .ok (getEods st (some t) storeId)

/-- `GET /api/inventory/history/` (inventory_history.py:10-25): same
`g.tenant_id` read, then the tenant/store snapshots newest-date-first. -/
def listInventoryHistory (g : Gctx) (st : DB) (storeId : Option String) :
    Except ApiResp (List HistoryRow) :=
  match g.tenantId with
  | none => .error { status := 500, success := false,
                     msg := "AttributeError: g has no attribute tenant_id" }
  | some t =>
      if !(truthy storeId) then
        .error { status := 400, success := false, msg := "store_id is required" }
      else
        let sid := storeId.getD ""
        let filtered := st.history.filter
          (fun h => h.tenantId == t && h.storeId == sid)
        .ok (filtered.foldr (fun h acc =>
          let rec ins (x : HistoryRow) : List HistoryRow → List HistoryRow
            | [] => [x]
            | y :: ys => if y.snapshotDate.key ≤ x.snapshotDate.key then x :: y :: ys
                         else y :: ins x ys
          ins h acc) [])

/-! ### Managers route (backend/routes/managers.py) -/

/-- The create-manager request body (managers.py:21-41). -/
structure ManagerReq where
  name : Option String := none
  username : Option String := none
  password : Option String := none
deriving DecidableEq, Repr

/-- `POST /api/managers/` (managers.py:16-55).  After the validations the
route delegates with `create_manager(name, username, password)`
(managers.py:48); `create_manager` (models.py:549) requires positional
`(tenant_id, name, username, password)`, so the call binds tenant_id to the
name, name to the username, username to the password, leaves password
unbound, and Python raises TypeError before entering the function.  The
surrounding `except Exception` turns that into a 500 response, so no
request that passes validation can create a manager. -/
def addManager (data : Option ManagerReq) : ApiResp :=
  match data with
  | none => { status := 400, success := false, msg := "Request body is required" }
  | some d =>
      if !(truthy d.name) then
        { status := 400, success := false, msg := "Manager name is required" }
      else if (d.name.getD "").length > 100 then
        { status := 400, success := false,
          msg := "Manager name is too long (max 100 characters)" }
      else if !(truthy d.username) then
        { status := 400, success := false, msg := "Username is required" }
      else if (d.username.getD "").length > 50 then
        { status := 400, success := false,
          msg := "Username is too long (max 50 characters)" }
      else if !(truthy d.password) then
        { status := 400, success := false, msg := "Password is required" }
      else if (d.password.getD "").length > 200 then
        { status := 400, success := false,
          msg := "Password is too long (max 200 characters)" }
      else if !(validatePasswordStrength (d.password.getD "")).1 then
        { status := 400, success := false,
          msg := ((validatePasswordStrength (d.password.getD "")).2).getD "" }
      else
        { status := 500, success := false,
          msg := "Failed to create manager: create_manager() missing 1 required positional argument: password" }

/-! ### Tenants routes (backend/routes/tenants.py) -/

/-- The token payload issued on tenant login (tenants.py:588-594). -/
structure LoginPayload where
  role : String
  tenantId : Nat
  companyName : String
  name : String
  username : String
deriving DecidableEq, Repr

/-- Outcome of `POST /login` on the tenants blueprint. -/
inductive LoginResult where
  | badRequest (msg : String)
  | unauthorized (msg : String)
  | forbidden (msg : String)
  | notFound (msg : String)
  | serverError
  | ok (payload : LoginPayload)
deriving DecidableEq, Repr

/-- `get_tenant_by_email` (models.py:458-461): first row with that email. -/
def getTenantByEmail (st : DB) (email : String) : Option TenantRow :=
  st.tenants.find? (fun t => t.email == email)

/-- `tenant_login` (tenants.py:551-603).  `checkpw` stands for bcrypt.
The status gate (tenants.py:567-570) runs before any password
verification. -/
def tenantLogin (checkpw : String → String → Bool) (st : DB)
    (emailRaw password : String) : LoginResult :=
  let email := pyLower (pyStrip emailRaw)
  if email = "" || password = "" then
    .badRequest "Email and password required"
  else
    match getTenantByEmail st email with
    | none => .unauthorized "Invalid credentials"
    | some tenant =>
        match st.tenants.find? (fun t => t.id == tenant.id) with
        | none => .serverError
        | some tenantObj =>
            if tenantObj.status ≠ "active" then
              .forbidden ("Account is " ++ tenantObj.status ++ ". Please contact support.")
            else if !(verifyPassword checkpw password tenant.passwordHash) then
              .unauthorized "Invalid credentials"
            else
              match st.managers.find?
                  (fun m => m.tenantId == tenant.id && m.isSuperAdmin) with
              | none => .notFound "Super admin account not found. Please contact support."
              | some sa =>
                  .ok { role := "super-admin", tenantId := tenant.id,
                        companyName := tenant.companyName, name := sa.name,
                        username := sa.username }

/-- The local prefix of `tenant_signup` (tenants.py:150-189): request
validation, the duplicate-email check, and the `create_tenant` call; the
flow is cut at the Stripe boundary, returning the tenant row the route
holds at that point.  `passwordHash` stands for the hash of the generated
temporary password. -/
def tenantSignupLocal (st : DB) (companyNameRaw emailRaw plan : String)
    (passwordHash : String) : Except ApiResp (TenantRow × DB) :=
  let companyName := pyStrip companyNameRaw
  let email := pyLower (pyStrip emailRaw)
  if companyName = "" then
    .error { status := 400, success := false, msg := "Company name is required" }
  else if email = "" then
    .error { status := 400, success := false, msg := "Email is required" }
  else if !(plan == "basic" || plan == "standard" || plan == "premium") then
    .error { status := 400, success := false,
             msg := "Invalid plan. Must be basic, standard, or premium" }
  else if (getTenantByEmail st email).isSome then
    .error { status := 400, success := false,
             msg := "An account with this email already exists" }
  else
    match createTenant st companyName email passwordHash plan with
    | .error e => .error { status := 400, success := false, msg := e }
    | .ok r => .ok r

/-! ### Derived predicates and abstractions used by the theorems -/

/-- A TimeClock row is an open entry of employee `e` of tenant `t` on the
UTC day starting at `day`. -/
def isOpenOn (t e day : Nat) (r : TimeClockRow) : Bool :=
  r.tenantId == t && r.employeeId == e && r.clockOut.isNone &&
    dayStartUTC r.clockIn == day

/-- The spec's TimeClock invariant (spec section 3): at most one open entry
per employee per tenant per UTC calendar day. -/
def TCInv (l : List TimeClockRow) : Prop :=
  ∀ t e day, (l.filter (isOpenOn t e day)).length ≤ 1

/-- The skus currently stored for a tenant/store, in row order. -/
def skusFor (st : DB) (t : Nat) (s : String) : List String :=
  (st.inventory.filter (fun r => r.tenantId == t && r.storeId == s)).map
    (fun r => r.sku)

/-- Pure sku-level model of the default-inventory loop: given the skus
already present, return how many catalogue items are inserted and the sku
list afterwards. -/
def skuLoop (present : List String) : List CatItem → Nat × List String
  | [] => (0, present)
  | it :: rest =>
      if present.contains it.sku then skuLoop present rest
      else
        let r := skuLoop (present ++ [it.sku]) rest
        (r.1 + 1, r.2)

/-- The ten distinct skus of the default catalogue, in first-occurrence
order. -/
def defaultSkus : List String :=
  ["Samsung", "Apple", "Motorola", "TCL", "Revvl", "Google", "Chromebook",
   "Flip Phone", "Generic", "Simcards"]

/-! ### Concrete states used by counterexamples and witnesses -/

/-- The empty database (fresh schema). -/
def dbEmpty : DB := {}

/-- An employee of tenant 2, for the cross-tenant delete counterexample. -/
def empT2 : EmployeeRow := { id := 1, tenantId := 2, name := "Mallory" }

/-- State holding only tenant 2's employee. -/
def dbC2 : DB := { employees := [empT2], nextEmployeeId := 2 }

/-- The row `create_tenant` builds for the example signup. -/
def tenantAcme : TenantRow :=
  { id := 1, companyName := "Acme", email := "acme@example.com",
    passwordHash := "h", plan := "basic" }

/-- A store of tenant 1 with one dependent row in each related table. -/
def storeA : StoreRow :=
  { id := 1, tenantId := 1, name := "A", username := "a", password := "h" }

/-- Dependent Inventory row of store A. -/
def invA : InventoryRow :=
  { id := 1, tenantId := 1, storeId := "A", sku := "Samsung",
    name := "S 23 FE", quantity := 3 }

/-- Dependent InventoryHistory row of store A. -/
def hisA : HistoryRow :=
  { id := 1, tenantId := 1, storeId := "A", snapshotDate := ⟨2024, 3, 1⟩,
    items := [] }

/-- Dependent EOD row of store A. -/
def eodA : EODRow :=
  { id := 1, tenantId := 1, storeId := "A", reportDate := "2024-03-01" }

/-- Dependent TimeClock row of store A. -/
def tcA : TimeClockRow :=
  { id := 1, tenantId := 1, employeeId := 7, storeId := some "A", clockIn := 0 }

/-- State with store A and one dependent row per related table. -/
def dbC4 : DB :=
  { stores := [storeA], inventory := [invA], history := [hisA],
    eods := [eodA], timeclock := [tcA] }

/-- A face-less employee of tenant 1 used by the legacy clock-in
counterexample. -/
def emp7 : EmployeeRow := { id := 7, tenantId := 1, name := "Eve" }

/-- State with one employee and an empty timeclock. -/
def dbC7 : DB := { employees := [emp7], nextEmployeeId := 8 }

/-- A 128-dimensional zero descriptor. -/
def d0 : List ℚ := List.replicate 128 0

/-- Tenant 1's face-registered employee carrying descriptor `d0`. -/
def empFace : EmployeeRow :=
  { id := 7, tenantId := 1, name := "Eve", faceRegistered := true,
    faceDescriptor := some d0 }

/-- An open entry of that employee clocked in at epoch 0. -/
def openEntry : TimeClockRow :=
  { id := 1, tenantId := 1, employeeId := 7, clockIn := 0, clockOut := none }

/-- State with the face-registered employee and the open entry. -/
def dbC8 : DB :=
  { employees := [empFace], timeclock := [openEntry], nextTcId := 2 }

/-- Face request carrying the employee's own descriptor and no image. -/
def reqC8 : FaceReq := { faceDescriptor := some d0 }

/-- State with one inventory row for store A and no snapshots. -/
def dbC9 : DB := { inventory := [invA], nextHistId := 1 }

/-- A suspended tenant with a bcrypt-marked password hash. -/
def tenantSusp : TenantRow :=
  { id := 1, companyName := "Acme", email := "acme@example.com",
    passwordHash := "$2b$12$hash", status := "suspended" }

/-- The suspended tenant's super-admin manager row. -/
def saMgr : ManagerRow :=
  { id := 1, tenantId := 1, name := "Super Admin", username := "acme",
    password := "$2b$x", isSuperAdmin := true }

/-- State with the suspended tenant and its super admin. -/
def dbC10 : DB := { tenants := [tenantSusp], managers := [saMgr] }

/-- Example decoded token payload carrying a tenant_id claim. -/
def claimsEx : Claims := { role := some "manager", tenantId := some 5 }

/-- Example verifier accepting exactly the token string tok. -/
def verifyEx : String → Option Claims :=
  fun s => if s = "tok" then some claimsEx else none

/-- A create-manager request that passes every route validation. -/
def reqC5 : ManagerReq :=
  { name := some "Alice", username := some "alice", password := some "Abcdef1!" }

/-- An example bcrypt oracle (accepts everything): the login hyperproperty
below holds for every oracle, this one instantiates the witness. -/
def checkpwEx : String → String → Bool := fun _ _ => true

/-- The 500 response a handler produces when it reads the unset
`g.tenant_id` attribute. -/
def gMissing : ApiResp :=
  { status := 500, success := false,
    msg := "AttributeError: g has no attribute tenant_id" }

/-- The match the face service produces for `empFace` probed with its own
descriptor: distance 0, confidence 1. -/
def matchEx : MatchResult :=
  { employeeId := 7, employeeName := "Eve", confidence := 1 }

/-! ### Theorems -/

/-- The sku-existence check is membership in the stored sku list. -/
theorem skuExists_eq_mem (st : DB) (t : Nat) (s k : String) :
    skuExists st t s k = (skusFor st t s).contains k := by
  rw [Bool.eq_iff_iff]
  unfold skuExists skusFor
  rw [List.find?_isSome, List.contains_iff_exists_mem_beq]
  constructor
  · rintro ⟨r, hr, hp⟩
    simp only [Bool.and_eq_true, beq_iff_eq] at hp
    refine ⟨r.sku, ?_, ?_⟩
    · exact List.mem_map.mpr ⟨r, List.mem_filter.mpr ⟨hr, by
        simp [hp.1.1, hp.1.2]⟩, rfl⟩
    · simp [hp.2]
  · rintro ⟨x, hx, hbeq⟩
    rcases List.mem_map.mp hx with ⟨r, hrf, hrx⟩
    rcases List.mem_filter.mp hrf with ⟨hr, hcond⟩
    simp only [Bool.and_eq_true, beq_iff_eq] at hcond
    refine ⟨r, hr, ?_⟩
    simp only [Bool.and_eq_true, beq_iff_eq]
    refine ⟨⟨hcond.1, hcond.2⟩, ?_⟩
    have : k = x := by simpa using hbeq
    rw [this, ← hrx]

/-- Appending a row of the tenant/store appends its sku to the sku list. -/
theorem skusFor_append_row (st : DB) (t : Nat) (s : String)
    (row : InventoryRow) (h1 : row.tenantId = t) (h2 : row.storeId = s)
    (inv : List InventoryRow) (hinv : inv = st.inventory ++ [row]) :
    skusFor { st with inventory := inv, nextInvId := st.nextInvId + 1 } t s =
      skusFor st t s ++ [row.sku] := by
  unfold skusFor
  simp [hinv, List.filter_append, h1, h2]

/-- The default-inventory loop is the sku-level loop on the stored sku
list: same creation count, same resulting sku list. -/
theorem addDefaultLoop_spec (t : Nat) (s : String) (items : List CatItem) :
    ∀ (st : DB) (c : Nat),
      (addDefaultLoop t s items st c).1 = c + (skuLoop (skusFor st t s) items).1 ∧
      skusFor (addDefaultLoop t s items st c).2 t s =
        (skuLoop (skusFor st t s) items).2 := by
  induction items with
  | nil => intro st c; exact ⟨by simp [addDefaultLoop, skuLoop], rfl⟩
  | cons it rest ih =>
      intro st c
      by_cases h : skuExists st t s it.sku = true
      · have hc : (skusFor st t s).contains it.sku = true := by
          rw [← skuExists_eq_mem]; exact h
        have hmem : it.sku ∈ skusFor st t s := by simpa using hc
        have step1 : addDefaultLoop t s (it :: rest) st c =
            addDefaultLoop t s rest st c := by
          simp [addDefaultLoop, h]
        have step2 : skuLoop (skusFor st t s) (it :: rest) =
            skuLoop (skusFor st t s) rest := by
          simp [skuLoop, hmem]
        rw [step1, step2]
        exact ih st c
      · have hc : (skusFor st t s).contains it.sku = false := by
          rw [← skuExists_eq_mem]; exact Bool.not_eq_true _ ▸ (by simpa using h)
        have hnm : it.sku ∉ skusFor st t s := by simpa using hc
        have step1 : addDefaultLoop t s (it :: rest) st c =
            addDefaultLoop t s rest
              { st with
                  inventory := st.inventory ++
                    [{ id := st.nextInvId, tenantId := t, storeId := s,
                       sku := it.sku, name := it.name, quantity := 0 }],
                  nextInvId := st.nextInvId + 1 } (c + 1) := by
          simp [addDefaultLoop, h]
        have hsk : skusFor
            { st with
                inventory := st.inventory ++
                  [{ id := st.nextInvId, tenantId := t, storeId := s,
                     sku := it.sku, name := it.name, quantity := 0 }],
                nextInvId := st.nextInvId + 1 } t s =
            skusFor st t s ++ [it.sku] :=
          skusFor_append_row st t s _ rfl rfl _ rfl
        have step2a : (skuLoop (skusFor st t s) (it :: rest)).1 =
            (skuLoop (skusFor st t s ++ [it.sku]) rest).1 + 1 := by
          simp [skuLoop, hnm]
        have step2b : (skuLoop (skusFor st t s) (it :: rest)).2 =
            (skuLoop (skusFor st t s ++ [it.sku]) rest).2 := by
          simp [skuLoop, hnm]
        obtain ⟨ihc, ihs⟩ := ih
          { st with
              inventory := st.inventory ++
                [{ id := st.nextInvId, tenantId := t, storeId := s,
                   sku := it.sku, name := it.name, quantity := 0 }],
              nextInvId := st.nextInvId + 1 } (c + 1)
        constructor
        · rw [step1, ihc, hsk, step2a]
          omega
        · rw [step1, ihs, hsk, step2b]

/-- When every catalogue sku is already stored, the loop is a no-op. -/
theorem addDefaultLoop_noop (t : Nat) (s : String) (items : List CatItem) :
    ∀ (st : DB) (c : Nat),
      (∀ it ∈ items, skuExists st t s it.sku = true) →
      addDefaultLoop t s items st c = (c, st) := by
  induction items with
  | nil => intro st c _; rfl
  | cons it rest ih =>
      intro st c hall
      have h := hall it (by simp)
      simp only [addDefaultLoop, h, if_pos]
      exact ih st c (fun x hx => hall x (by simp [hx]))

/-- C6 counterexample: provisioning a fresh store creates only 10 inventory
rows — one per distinct catalogue sku, the unique (tenant, store, sku)
constraint permitting no more — not the 45 the claim states. -/
theorem c6_default_inventory_count_cex :
    ((addDefaultInventoryToStore dbEmpty 1 "A").2.inventory.filter
        (fun r => r.tenantId == 1 && r.storeId == "A")).length = 10 ∧
    ¬ (((addDefaultInventoryToStore dbEmpty 1 "A").2.inventory.filter
        (fun r => r.tenantId == 1 && r.storeId == "A")).length = 45) := by
  decide

/-- C6 (corrected): `add_default_inventory_to_store` on a store with no
inventory creates exactly 10 rows, one per distinct catalogue sku in
first-occurrence order, never duplicated, and a second call creates 0 new
items and leaves the state unchanged (idempotence). -/
theorem c6_default_inventory_idempotent (t : Nat) (s : String) (st : DB)
    (h : st.inventory.filter (fun r => r.tenantId == t && r.storeId == s) = []) :
    (addDefaultInventoryToStore st t s).1 = 10 ∧
    skusFor (addDefaultInventoryToStore st t s).2 t s = defaultSkus ∧
    defaultSkus.Nodup ∧
    addDefaultInventoryToStore (addDefaultInventoryToStore st t s).2 t s =
      (0, (addDefaultInventoryToStore st t s).2) := by
  have hempty : skusFor st t s = [] := by
    unfold skusFor; rw [h]; rfl
  obtain ⟨hcount, hskus⟩ := addDefaultLoop_spec t s getDefaultInventoryItems st 0
  have hloop : skuLoop ([] : List String) getDefaultInventoryItems =
      (10, defaultSkus) := by decide
  have hcount10 : (addDefaultInventoryToStore st t s).1 = 10 := by
    unfold addDefaultInventoryToStore
    rw [hcount, hempty, hloop]
    rfl
  have hskus10 : skusFor (addDefaultInventoryToStore st t s).2 t s = defaultSkus := by
    unfold addDefaultInventoryToStore
    rw [hskus, hempty, hloop]
  refine ⟨hcount10, hskus10, by decide, ?_⟩
  have hall : ∀ it ∈ getDefaultInventoryItems,
      skuExists (addDefaultInventoryToStore st t s).2 t s it.sku = true := by
    intro it hit
    rw [skuExists_eq_mem, hskus10]
    revert it hit
    decide
  unfold addDefaultInventoryToStore
  exact addDefaultLoop_noop t s getDefaultInventoryItems _ 0 hall

/-- Witness for C6: the whole amended statement evaluated at tenant 1,
store A, on the empty database. -/
theorem c6_default_inventory_idempotent_witness :
    (addDefaultInventoryToStore dbEmpty 1 "A").1 = 10 ∧
    skusFor (addDefaultInventoryToStore dbEmpty 1 "A").2 1 "A" = defaultSkus ∧
    defaultSkus.Nodup ∧
    addDefaultInventoryToStore (addDefaultInventoryToStore dbEmpty 1 "A").2 1 "A" =
      (0, (addDefaultInventoryToStore dbEmpty 1 "A").2) :=
  c6_default_inventory_idempotent 1 "A" dbEmpty rfl

/-- C1 (code_bug): `require_auth` attaches the decoded claims as
`current_user` but never promotes the `tenant_id` claim into the request
context: for every request carrying a valid token whose payload has a
tenant_id claim, the produced context has `tenantId = none`, and the
tenant-scoped handlers (the EOD list and the inventory-history list) fail
with a 500 when they read that context value instead of obtaining the
token's tenant_id. -/
theorem c1_tenant_context_not_promoted
    (verify : String → Option Claims) (token : String) (u : Claims) (t : Nat)
    (st : DB) (q : Option String)
    (htok : token ≠ "") (hv : verify token = some u)
    (_ht : u.tenantId = some t) :
    requireAuth verify token none = .ok { currentUser := some u, tenantId := none } ∧
    listEod { currentUser := some u, tenantId := none } st q = .error gMissing ∧
    listInventoryHistory { currentUser := some u, tenantId := none } st q =
      .error gMissing := by
  refine ⟨?_, rfl, rfl⟩
  unfold requireAuth
  rw [if_neg htok, hv]
  rfl

/-- Witness for C1: a concrete verifier, token and payload with
tenant_id = 5, evaluated on the empty database. -/
theorem c1_tenant_context_not_promoted_witness :
    requireAuth verifyEx "tok" none =
      .ok { currentUser := some claimsEx, tenantId := none } ∧
    listEod { currentUser := some claimsEx, tenantId := none } dbEmpty none =
      .error gMissing ∧
    listInventoryHistory { currentUser := some claimsEx, tenantId := none }
      dbEmpty none = .error gMissing :=
  c1_tenant_context_not_promoted verifyEx "tok" claimsEx 5 dbEmpty none
    (by decide) (by decide) (by decide)

/-- C2 counterexample: the delete-employee endpoint is not tenant-scoped —
a request (which carries no authentication at all, so its caller belongs to
no tenant, in particular not to tenant 2) deletes tenant 2's employee and
returns 200, so employees of tenants other than the caller's are changed by
the call. -/
theorem c2_delete_not_tenant_scoped_cex :
    (removeEmployee dbC2 "1").1 =
      { status := 200, success := true, msg := "Employee deleted successfully" } ∧
    ((removeEmployee dbC2 "1").2).employees = [] := by
  exact ⟨rfl, rfl⟩

/-- C2 (corrected): the delete endpoint deletes the employee with the given
id from whatever tenant owns it — a malformed or unknown id yields 404 with
the state unchanged, a known id yields 200 with exactly that employee (and
its cascading TimeClock entries) removed, with no tenant filter anywhere. -/
theorem c2_delete_behavior (st : DB) (raw : String) :
    (pyParseInt raw = none →
       removeEmployee st raw =
         ({ status := 404, success := false, msg := "Employee not found" }, st)) ∧
    (∀ eid, pyParseInt raw = some eid →
       (st.employees.find? (fun e => e.id == eid) = none →
          removeEmployee st raw =
            ({ status := 404, success := false, msg := "Employee not found" }, st)) ∧
       (st.employees.find? (fun e => e.id == eid) ≠ none →
          removeEmployee st raw =
            ({ status := 200, success := true, msg := "Employee deleted successfully" },
             { st with
                employees := st.employees.filter (fun e => !(e.id == eid)),
                timeclock := st.timeclock.filter (fun r => !(r.employeeId == eid)) }))) := by
  refine ⟨?_, ?_⟩
  · intro hp
    simp [removeEmployee, deleteEmployee, hp]
  · intro eid hp
    refine ⟨?_, ?_⟩
    · intro hf
      simp [removeEmployee, deleteEmployee, hp, hf]
    · intro hf
      rcases Option.ne_none_iff_exists.mp hf with ⟨e, he⟩
      simp [removeEmployee, deleteEmployee, hp, ← he]

/-- Witness for C2: parsing and deleting employee 1 in the concrete state. -/
theorem c2_delete_behavior_witness :
    removeEmployee dbC2 "1" =
      ({ status := 200, success := true, msg := "Employee deleted successfully" },
       { dbC2 with
          employees := dbC2.employees.filter (fun e => !(e.id == 1)),
          timeclock := dbC2.timeclock.filter (fun r => !(r.employeeId == 1)) }) :=
  ((c2_delete_behavior dbC2 "1").2 1 (by decide)).2 (by decide)

/-- C3 (code_bug): whenever the local phase of tenant signup succeeds —
i.e. immediately after `create_tenant` returns — the created tenant row's
status IS the string active, because the status column defaults to active
and `create_tenant` never assigns a non-active status; the claim says the
status is not active until payment completes. -/
theorem c3_new_tenant_status_active (st : DB) (cn em plan ph : String)
    (tr : TenantRow) (st' : DB)
    (h : tenantSignupLocal st cn em plan ph = .ok (tr, st')) :
    tr.status = "active" := by
  simp only [tenantSignupLocal] at h
  split at h
  · exact absurd h (by simp)
  split at h
  · exact absurd h (by simp)
  split at h
  · exact absurd h (by simp)
  split at h
  · exact absurd h (by simp)
  · rcases hc : createTenant st (pyStrip cn) (pyLower (pyStrip em)) ph plan with e | r
    · rw [hc] at h
      exact absurd h (by simp)
    · rw [hc] at h
      injection h with h2
      simp only [createTenant] at hc
      split at hc
      · exact absurd hc (by simp)
      · injection hc with hc2
        have h3 := congrArg (fun p => (Prod.fst p).status) hc2
        have h4 := congrArg (fun p => (Prod.fst p).status) h2
        simp only at h3 h4
        rw [← h4, ← h3]

/-- Witness for C3: the example signup on the empty database yields the
tenant row `tenantAcme`, whose status is active. -/
theorem c3_new_tenant_status_active_witness : tenantAcme.status = "active" :=
  c3_new_tenant_status_active dbEmpty "Acme" "acme@example.com" "basic" "h"
    tenantAcme { dbEmpty with tenants := [tenantAcme], nextTenantId := 2 } rfl

/-- C4 (code_bug): deleting an existing store returns true and removes the
store row and its TimeClock rows, but the dependent Inventory,
InventoryHistory and EOD rows of that tenant/store survive — no cascade
from Store to those tables exists, contrary to the claim (and to the
comment inside `delete_store` itself). -/
theorem c4_delete_store_leaves_dependents :
    (deleteStore dbC4 1 "A").1 = true ∧
    ((deleteStore dbC4 1 "A").2).timeclock = [] ∧
    ((deleteStore dbC4 1 "A").2).stores = [] ∧
    ((deleteStore dbC4 1 "A").2).inventory = [invA] ∧
    ((deleteStore dbC4 1 "A").2).history = [hisA] ∧
    ((deleteStore dbC4 1 "A").2).eods = [eodA] := by
  exact ⟨rfl, rfl, rfl, rfl, rfl, rfl⟩

/-- C5 (code_bug): every create-manager request that passes all the route
validations (non-empty name of at most 100 characters, username of at most
50, strength-valid password of at most 200) reaches the delegation
`create_manager(name, username, password)` whose arity does not match the
model function, so the route answers 500 — never the claimed 201 or 400. -/
theorem c5_add_manager_always_500 (name username password : String)
    (h1 : name ≠ "") (h2 : name.length ≤ 100)
    (h3 : username ≠ "") (h4 : username.length ≤ 50)
    (h5 : password ≠ "") (h6 : password.length ≤ 200)
    (h7 : (validatePasswordStrength password).1 = true) :
    addManager (some { name := some name, username := some username,
                       password := some password }) =
      { status := 500, success := false,
        msg := "Failed to create manager: create_manager() missing 1 required positional argument: password" } := by
  have g2 : ¬(name.length > 100) := by omega
  have g4 : ¬(username.length > 50) := by omega
  have g6 : ¬(password.length > 200) := by omega
  simp [addManager, truthy, h1, h3, h5, h7, g2, g4, g6]

/-- Witness for C5: the concrete valid request (name Alice, username alice,
password Abcdef1!) is answered with the 500 response. -/
theorem c5_add_manager_always_500_witness :
    addManager (some reqC5) =
      { status := 500, success := false,
        msg := "Failed to create manager: create_manager() missing 1 required positional argument: password" } :=
  c5_add_manager_always_500 "Alice" "alice" "Abcdef1!"
    (by decide) (by decide) (by decide) (by decide) (by decide) (by decide)
    (by decide)

/-- Appearance learning touches only the employees table. -/
theorem learnAppearance_timeclock (st : DB) (emp : EmployeeRow)
    (probe : List ℚ) (conf : ℚ) :
    (learnAppearance st emp probe conf).timeclock = st.timeclock := by
  simp only [learnAppearance]
  split <;> split <;> rfl

/-- Storage accounting touches only the tenants table. -/
theorem updateTenantStorage_timeclock (st : DB) (t : Nat) (n : Int)
    (st' : DB) (h : updateTenantStorage st t n = .ok st') :
    st'.timeclock = st.timeclock := by
  unfold updateTenantStorage at h
  split at h
  · exact absurd h (by simp)
  · injection h with h2
    rw [← h2]

/-- The storage-usage update touches only the tenants table. -/
theorem updateStorageUsage_timeclock (st : DB) (t : Nat) (n : Int)
    (st' : DB) (h : updateStorageUsage st t n = .ok st') :
    st'.timeclock = st.timeclock := by
  unfold updateStorageUsage at h
  split at h
  · split at h
    · exact absurd h (by simp)
    · exact updateTenantStorage_timeclock st t n st' h
  · exact updateTenantStorage_timeclock st t n st' h

/-- Unfolding of the open-entry predicate into propositional components. -/
theorem isOpenOn_iff (t e day : Nat) (r : TimeClockRow) :
    isOpenOn t e day r = true ↔
      (r.tenantId = t ∧ r.employeeId = e ∧ r.clockOut = none ∧
       dayStartUTC r.clockIn = day) := by
  simp [isOpenOn, Bool.and_eq_true, beq_iff_eq, Option.isNone_iff_eq_none,
    and_assoc]

/-- Inserting a fresh open entry preserves the one-open-entry-per-day
invariant when the source's open-entry-today query came back empty. -/
theorem tcinv_insert (l : List TimeClockRow) (new : TimeClockRow)
    (h : TCInv l)
    (hfind : l.find? (fun r => r.tenantId == new.tenantId &&
        r.employeeId == new.employeeId &&
        decide (dayStartUTC new.clockIn ≤ r.clockIn) &&
        r.clockOut.isNone) = none) :
    TCInv (l ++ [new]) := by
  intro t e day
  rw [List.filter_append]
  by_cases hn : isOpenOn t e day new = true
  · obtain ⟨ht, he, hco, hday⟩ := (isOpenOn_iff t e day new).mp hn
    have hemp : l.filter (isOpenOn t e day) = [] := by
      rw [List.filter_eq_nil_iff]
      intro r hr hpr
      obtain ⟨hrt, hre, hrco, hrday⟩ := (isOpenOn_iff t e day r).mp hpr
      have hle : dayStartUTC new.clockIn ≤ r.clockIn := by
        have h1 : dayStartUTC r.clockIn ≤ r.clockIn := Nat.div_mul_le_self _ _
        rw [hday, ← hrday]
        exact h1
      have := List.find?_eq_none.mp hfind r hr
      apply this
      simp [hrt, ht, hre, he, hle, hrco]
    rw [hemp]
    simp [hn]
  · have hone : List.filter (isOpenOn t e day) [new] = [] := by
      simp [List.filter, hn]
    rw [hone, List.append_nil]
    exact h t e day

/-- C7 counterexample: the empty timeclock satisfies the invariant, yet two
legacy clock-in requests for the same employee on the same UTC day — the
endpoint performs no duplicate check — produce a state with two open
entries for that employee and day, violating the invariant the claim states
for every state reachable through the timeclock endpoints. -/
theorem c7_legacy_clock_in_violates_invariant :
    TCInv dbC7.timeclock ∧
    ¬ TCInv ((clockInRoute (clockInRoute dbC7 1 7 100).2 1 7 200).2).timeclock := by
  constructor
  · intro t e day
    exact Nat.zero_le 1
  · intro hinv
    have := hinv 1 7 0
    have h2 : (((clockInRoute (clockInRoute dbC7 1 7 100).2 1 7 200).2).timeclock.filter
        (isOpenOn 1 7 0)).length = 2 := by decide
    omega

/-- C7 (corrected): the face-based clock-in preserves the invariant — it
rejects with 400 whenever the matched employee already has an open entry
started on the current UTC day, and otherwise inserts a single fresh open
entry — so every state reachable through it from an invariant-satisfying
state satisfies the invariant; the legacy clock-in performs no such check
(see the counterexample). -/
theorem c7_face_clock_in_preserves_invariant (st : DB) (tenantId : Nat)
    (req : FaceReq) (now : Nat) (h : TCInv st.timeclock) :
    TCInv ((clockInFace st tenantId req now).2).timeclock := by
  simp only [clockInFace]
  split
  · exact h
  split
  · exact h
  split
  · exact h
  split
  · exact h
  split
  · exact h
  split
  · exact h
  split
  · simpa [learnAppearance_timeclock] using h
  split
  · simpa [learnAppearance_timeclock] using h
  rename_i x3 probe hpd hne hnv hreg x2 mr hmr x1 emp hemp x0 hopen aft st2 heq
  have hlearn := learnAppearance_timeclock st emp probe mr.confidence
  have hst2 : st2.timeclock = st.timeclock := by
    rcases himg : req.faceImageSize with _ | sz
    · rw [himg] at heq
      simp only [] at heq
      injection heq with h2
      rw [← h2, hlearn]
    · rw [himg] at heq
      simp only [] at heq
      rcases hchk : checkStorageLimit (learnAppearance st emp probe mr.confidence)
          tenantId sz with ⟨ok, emsg⟩
      rw [hchk] at heq
      cases ok with
      | false => exact absurd heq (by simp)
      | true =>
          simp only [] at heq
          rw [updateStorageUsage_timeclock _ _ _ _ heq, hlearn]
  show TCInv (st2.timeclock ++ [_])
  apply tcinv_insert st2.timeclock _ (hst2 ▸ h)
  show st2.timeclock.find? _ = none
  rw [hst2, ← hlearn]
  exact hopen

/-- Witness for C7: the preservation theorem applied to the concrete state
with one employee and an empty timeclock. -/
theorem c7_face_clock_in_preserves_invariant_witness :
    TCInv ((clockInFace dbC7 1 reqC8 100).2).timeclock :=
  c7_face_clock_in_preserves_invariant dbC7 1 reqC8 100
    (fun _ _ _ => Nat.zero_le 1)

/-- The squared distance from a descriptor to itself is zero. -/
theorem distSq_self (a : List ℚ) : distSq a a = 0 := by
  induction a with
  | nil => rfl
  | cons x xs ih =>
      unfold distSq at ih ⊢
      simp [List.zip_cons_cons, ih]

/-- The floor of an integer cast into ℚ is itself. -/
theorem ratFloor_intCast (n : ℤ) : ratFloor (n : ℚ) = n := by
  unfold ratFloor
  rw [Rat.num_intCast, Rat.den_intCast]
  simp [Int.fdiv_one]

/-- Half-even rounding of an integer cast into ℚ is itself. -/
theorem roundHalfEven_intCast (n : ℤ) : roundHalfEven (n : ℚ) = n := by
  simp only [roundHalfEven, ratFloor_intCast]
  have h0 : (n : ℚ) - (n : ℚ) = 0 := sub_self _
  rw [h0]
  norm_num

/-- Evaluation rule for round2 on values that are exact multiples of a
hundredth. -/
theorem round2_eq (x : ℚ) (n : ℤ) (h : x * 100 = (n : ℚ)) :
    round2 x = (n : ℚ) / 100 := by
  unfold round2
  rw [h, roundHalfEven_intCast]

/-- C8 counterexample: the legacy clock-out closes the open entry whose
clock-in was 2h30m earlier but leaves hours_worked unset — null instead of
the 2.5 the claim requires for every entry closed by either endpoint. -/
theorem c8_legacy_clock_out_no_hours_cex :
    (clockOutRoute dbC8 1 1 9000).1 = { status := 200 } ∧
    ((clockOutRoute dbC8 1 1 9000).2).timeclock =
      [{ openEntry with clockOut := some 9000 }] ∧
    round2 (((9000 : ℚ) - 0) / 3600) = 5/2 ∧
    ¬ ({ openEntry with clockOut := some 9000 }.hoursWorked = some (5/2)) := by
  refine ⟨rfl, rfl, ?_, by simp [openEntry]⟩
  have h : (((9000 : ℚ) - 0) / 3600) * 100 = ((250 : ℤ) : ℚ) := by norm_num
  rw [round2_eq _ 250 h]
  norm_num

/-- C8 (corrected): the face-based clock-out computes hours_worked: when it
succeeds it answers 200 with the open entry's id and every row of the
resulting state carrying that id has clock_out = now and hours_worked equal
to the clock difference in hours rounded to 2 decimals; the legacy
clock-out endpoint sets clock_out without ever assigning hours_worked (see
the counterexample). -/
theorem c8_face_clock_out_hours (st : DB) (tenantId : Nat) (req : FaceReq)
    (now : Nat) (probe : List ℚ) (m : MatchResult) (emp : EmployeeRow)
    (entry : TimeClockRow)
    (hpd : req.faceDescriptor = some probe) (hne : ¬(probe = []))
    (hv : validateFaceDescriptor probe = true)
    (hreg : ¬(st.employees.filter
        (fun e => e.tenantId == tenantId && e.faceRegistered) = []))
    (hm : findBestMatch probe
        (st.employees.filter (fun e => e.tenantId == tenantId && e.faceRegistered))
        (9/25) = some m)
    (hemp : st.employees.find?
        (fun e => e.id == m.employeeId && e.tenantId == tenantId) = some emp)
    (hentry : findOpenTodayEntry (learnAppearance st emp probe m.confidence)
        tenantId m.employeeId now = some entry)
    (himg : req.faceImageSize = none) :
    (clockOutFace st tenantId req now).1 =
      { status := 200, rid := some entry.id } ∧
    ∀ r ∈ ((clockOutFace st tenantId req now).2).timeclock,
      r.id = entry.id →
      r.clockOut = some now ∧
      r.hoursWorked = some (round2 (((now : ℚ) - (entry.clockIn : ℚ)) / 3600)) := by
  have hnv : ¬((!validateFaceDescriptor probe) = true) := by simp [hv]
  have hres : clockOutFace st tenantId req now =
      ({ status := 200, rid := some entry.id },
       { learnAppearance st emp probe m.confidence with
           timeclock := (learnAppearance st emp probe m.confidence).timeclock.map
             (fun r =>
               if r.id == entry.id then
                 { r with clockOut := some now, clockOutImageSize := none,
                          clockOutConfidence := some m.confidence,
                          hoursWorked := some (round2 (((now : ℚ) - (entry.clockIn : ℚ)) / 3600)) }
               else r) }) := by
    simp [clockOutFace, hpd, hne, hnv, hreg, hm, hemp, hentry, himg, hv]
  rw [hres]
  refine ⟨rfl, ?_⟩
  intro r hr hid
  rcases List.mem_map.mp hr with ⟨x, _hx, hxr⟩
  by_cases hxid : (x.id == entry.id) = true
  · rw [if_pos hxid] at hxr
    rw [← hxr]
    exact ⟨rfl, rfl⟩
  · rw [if_neg hxid] at hxr
    rw [← hxr] at hid
    exact absurd (beq_iff_eq.mpr hid) hxid

set_option maxRecDepth 8192 in
/-- Witness for C8: the registered employee clocked in at epoch 0 is
face-clocked-out at epoch 9000 (2h30m later) and the closed entry carries
hours_worked 2.5. -/
theorem c8_face_clock_out_hours_witness :
    ((clockOutFace dbC8 1 reqC8 9000).1 =
        { status := 200, rid := some openEntry.id } ∧
      ∀ r ∈ ((clockOutFace dbC8 1 reqC8 9000).2).timeclock,
        r.id = openEntry.id →
        r.clockOut = some 9000 ∧
        r.hoursWorked = some (round2 (((9000 : ℚ) - (openEntry.clockIn : ℚ)) / 3600))) ∧
    round2 (((9000 : ℚ) - (openEntry.clockIn : ℚ)) / 3600) = 5/2 := by
  have h3 : distSq d0 d0 = 0 := distSq_self d0
  have hfil : dbC8.employees.filter
      (fun e => e.tenantId == 1 && e.faceRegistered) = [empFace] := by decide
  have hm : findBestMatch d0 [empFace] (9/25) = some matchEx := by
    simp [findBestMatch, minDistSq, List.min?, candidateDescriptors,
      EmployeeRow.getFaceDescriptors, empFace, h3, matchEx]
  have hlearnEx : learnAppearance dbC8 empFace d0 matchEx.confidence = dbC8 := by
    simp [learnAppearance, EmployeeRow.getFaceDescriptors, empFace, minDistSq,
      List.min?, h3, matchEx]
    norm_num
  have hentry : findOpenTodayEntry
      (learnAppearance dbC8 empFace d0 matchEx.confidence) 1
      matchEx.employeeId 9000 = some openEntry := by
    rw [hlearnEx]; decide
  have hcin : (openEntry.clockIn : ℚ) = 0 := by norm_num [openEntry]
  refine ⟨c8_face_clock_out_hours dbC8 1 reqC8 9000 d0 matchEx empFace openEntry
      rfl (by decide) (by decide) (by decide)
      (by rw [hfil]; exact hm) (by decide) hentry rfl, ?_⟩
  have h : (((9000 : ℚ) - (openEntry.clockIn : ℚ)) / 3600) * 100 =
      ((250 : ℤ) : ℚ) := by
    rw [hcin]; norm_num
  rw [round2_eq _ 250 h]
  norm_num

/-- C9 (confirmed): a snapshot request whose parsed snapshot date is
strictly before the parsed today date is answered 403 with the
InventoryHistory table unchanged, whether or not a snapshot for that date
exists; a request dated exactly today creates a row (201) on first call and
updates that same row in place (200, same id) on the second. -/
theorem c9_snapshot_past_forbidden_today_upsert :
    (∀ (st : DB) (tenantId : Nat) (storeId : Option String)
       (sd td : Option String) (nowLocal : SDate) (nowTs : Nat) (dt : SDate),
       truthy storeId = true →
       resolveSnapshotDate sd td nowLocal = some dt →
       dt.before (resolveTodayDate td nowLocal) = true →
       (createInventorySnapshot st tenantId storeId sd td nowLocal nowTs).1.status = 403 ∧
       (createInventorySnapshot st tenantId storeId sd td nowLocal nowTs).2 = st) ∧
    (∀ (st : DB) (tenantId : Nat) (s : String) (sd td : Option String)
       (nowLocal : SDate) (nowTs nowTs2 : Nat) (dt : SDate),
       s ≠ "" →
       resolveSnapshotDate sd td nowLocal = some dt →
       dt.before (resolveTodayDate td nowLocal) = false →
       st.history.find? (fun h => h.tenantId == tenantId && h.storeId == s &&
         h.snapshotDate == dt) = none →
       (createInventorySnapshot st tenantId (some s) sd td nowLocal nowTs).1 =
         { status := 201, msg := "Snapshot created", rid := some st.nextHistId } ∧
       (createInventorySnapshot
          (createInventorySnapshot st tenantId (some s) sd td nowLocal nowTs).2
          tenantId (some s) sd td nowLocal nowTs2).1 =
         { status := 200, msg := "Snapshot updated", rid := some st.nextHistId }) := by
  constructor
  · intro st tenantId storeId sd td nowLocal nowTs dt htr hres hbef
    rcases hex : st.history.find? (fun h => h.tenantId == tenantId &&
        h.storeId == (storeId.getD "") && h.snapshotDate == dt) with _ | existing
    · constructor <;> simp [createInventorySnapshot, htr, hres, hex, hbef]
    · constructor <;> simp [createInventorySnapshot, htr, hres, hex, hbef]
  · intro st tenantId s sd td nowLocal nowTs nowTs2 dt hs hres hbef hnone
    have hfirst : createInventorySnapshot st tenantId (some s) sd td nowLocal nowTs =
        ({ status := 201, msg := "Snapshot created", rid := some st.nextHistId },
         { st with
             history := st.history ++
               [{ id := st.nextHistId, tenantId := tenantId, storeId := s,
                  snapshotDate := dt, items := snapshotItems st tenantId s,
                  createdAt := nowTs, updatedAt := nowTs }],
             nextHistId := st.nextHistId + 1 }) := by
      simp [createInventorySnapshot, truthy, hs, hres, hbef, hnone]
    refine ⟨by rw [hfirst], ?_⟩
    rw [hfirst]
    simp [createInventorySnapshot, truthy, hs, hres, hbef, hnone,
      List.find?_append]

/-- Witness for C9: in the concrete state with one inventory row, a
snapshot dated 2024-03-01 against today 2024-03-02 is rejected with 403 and
no table change; a snapshot dated 2024-03-02 is created with id 1 and then
updated in place with the same id. -/
theorem c9_snapshot_past_forbidden_today_upsert_witness :
    ((createInventorySnapshot dbC9 1 (some "A") (some "2024-03-01")
        (some "2024-03-02") ⟨2024, 3, 2⟩ 0).1.status = 403 ∧
     (createInventorySnapshot dbC9 1 (some "A") (some "2024-03-01")
        (some "2024-03-02") ⟨2024, 3, 2⟩ 0).2 = dbC9) ∧
    ((createInventorySnapshot dbC9 1 (some "A") (some "2024-03-02")
        (some "2024-03-02") ⟨2024, 3, 2⟩ 0).1 =
       { status := 201, msg := "Snapshot created", rid := some dbC9.nextHistId } ∧
     (createInventorySnapshot
        (createInventorySnapshot dbC9 1 (some "A") (some "2024-03-02")
           (some "2024-03-02") ⟨2024, 3, 2⟩ 0).2
        1 (some "A") (some "2024-03-02") (some "2024-03-02") ⟨2024, 3, 2⟩ 5).1 =
       { status := 200, msg := "Snapshot updated", rid := some dbC9.nextHistId }) :=
  ⟨c9_snapshot_past_forbidden_today_upsert.1 dbC9 1 (some "A")
      (some "2024-03-01") (some "2024-03-02") ⟨2024, 3, 2⟩ 0 ⟨2024, 3, 1⟩
      (by decide) (by decide) (by decide),
   c9_snapshot_past_forbidden_today_upsert.2 dbC9 1 "A"
      (some "2024-03-02") (some "2024-03-02") ⟨2024, 3, 2⟩ 0 5 ⟨2024, 3, 2⟩
      (by decide) (by decide) (by decide) (by decide)⟩

/-- C10 (confirmed): tenant login checks the tenant's status before any
password verification, so for every bcrypt oracle and every tenant whose
status is not active, two arbitrary non-empty passwords receive the
identical 403 response naming that status — the endpoint discloses the
account status without valid credentials. -/
theorem c10_login_status_before_password
    (checkpw : String → String → Bool) (st : DB) (emailRaw p1 p2 : String)
    (tr tobj : TenantRow)
    (hne : pyLower (pyStrip emailRaw) ≠ "")
    (hp1 : p1 ≠ "") (hp2 : p2 ≠ "")
    (hfind : getTenantByEmail st (pyLower (pyStrip emailRaw)) = some tr)
    (hobj : st.tenants.find? (fun t => t.id == tr.id) = some tobj)
    (hstat : tobj.status ≠ "active") :
    tenantLogin checkpw st emailRaw p1 =
      .forbidden ("Account is " ++ tobj.status ++ ". Please contact support.") ∧
    tenantLogin checkpw st emailRaw p1 = tenantLogin checkpw st emailRaw p2 := by
  have key : ∀ p, p ≠ "" →
      tenantLogin checkpw st emailRaw p =
        .forbidden ("Account is " ++ tobj.status ++ ". Please contact support.") := by
    intro p hp
    simp only [tenantLogin, hne, hp, hfind, hobj]
    simp [hstat]
  exact ⟨key p1 hp1, (key p1 hp1).trans (key p2 hp2).symm⟩

/-- Witness for C10: the suspended tenant receives the same 403 naming the
suspended status for a correct-looking and a wrong password. -/
theorem c10_login_status_before_password_witness :
    tenantLogin checkpwEx dbC10 "acme@example.com" "Right1!pw" =
      .forbidden "Account is suspended. Please contact support." ∧
    tenantLogin checkpwEx dbC10 "acme@example.com" "Right1!pw" =
      tenantLogin checkpwEx dbC10 "acme@example.com" "wrong" :=
  c10_login_status_before_password checkpwEx dbC10 "acme@example.com"
    "Right1!pw" "wrong" tenantSusp tenantSusp (by decide) (by decide)
    (by decide) (by decide) (by decide) (by decide)

end TimeTrack
